import Mathlib

/-!
Verification development for the image ingestion/optimization pipeline of the
meme2xyz repository (the `ImageProcessor` class).  The JavaScript source is
shallowly embedded: machine numbers become `Nat`/`Int`/`Rat`, `Math.round`
becomes a half-up rounding on `Rat`, the in-memory `Map` becomes an
insertion-ordered association list, and fallible I/O operations become
`Option`/`Except` parameters so that the `try`/`catch` structure of the source
is explicit.
-/

namespace ImageProc

/-- JavaScript `Math.round`: rounds half-up (towards positive infinity),
modelled exactly on the rationals. -/
def jsRound (x : ℚ) : ℤ := ⌊x + 1/2⌋

/-- Dimension computation for the optimized derivative, from `processImage`:
`aspectRatio = width / height`; if either source dimension exceeds the
bounding box, the wider side is clamped to the box and the other side derived
by `Math.round`; otherwise the source dimensions are kept unchanged. -/
def computeOptimizedDims (w h bw bh : ℕ) : ℤ × ℤ :=
  if w > bw ∨ h > bh then
    if (w : ℚ) / (h : ℚ) > (bw : ℚ) / (bh : ℚ) then
      ((bw : ℤ), jsRound ((bw : ℚ) / ((w : ℚ) / (h : ℚ))))
    else (jsRound ((bh : ℚ) * ((w : ℚ) / (h : ℚ))), (bh : ℤ))
  else ((w : ℤ), (h : ℤ))

/-- Dimension computation for the thumbnail derivative, from `processImage`:
unlike the optimized branch there is no guard for sources already smaller
than the box — the box-clamped dimensions are always derived. -/
def computeThumbDims (w h tw th : ℕ) : ℤ × ℤ :=
  if (w : ℚ) / (h : ℚ) > (tw : ℚ) / (th : ℚ) then
    ((tw : ℤ), jsRound ((tw : ℚ) / ((w : ℚ) / (h : ℚ))))
  else (jsRound ((th : ℚ) * ((w : ℚ) / (h : ℚ))), (th : ℤ))

/-- Characters kept verbatim by the regex class `[a-z0-9]` (after
lowercasing). -/
def isLowerAlnum (c : Char) : Bool :=
  ('a' ≤ c && c ≤ 'z') || ('0' ≤ c && c ≤ '9')

/-- One character of the first `replace` (every character outside the class
`[a-z0-9-]` becomes a hyphen). -/
def keepOrDash (c : Char) : Char :=
  if isLowerAlnum c || c == '-' then c else '-'

/-- The second `replace` (global regex: one or more hyphens, replaced by a
single hyphen): collapse every run of hyphens to a single hyphen.
The boolean tracks whether the previous emitted character was a hyphen of the
current run. -/
def collapseGo : Bool → List Char → List Char
  | _, [] => []
  | prev, c :: rest =>
    if c = '-' then
      if prev then collapseGo true rest else '-' :: collapseGo true rest
    else c :: collapseGo false rest

/-- One leading hyphen removed, as matched by the start-anchored alternative
of the third `replace`. -/
def dropLeadDash : List Char → List Char
  | '-' :: rest => rest
  | l => l

/-- One trailing hyphen removed, as matched by the end-anchored alternative
of the third `replace`. -/
def dropTrailDash (l : List Char) : List Char :=
  (dropLeadDash l.reverse).reverse

/-- POSIX `path.basename`: the last path segment, ignoring trailing
slashes. -/
def basenameList (l : List Char) : List Char :=
  ((l.reverse.dropWhile (fun c => c = '/')).takeWhile (fun c => c ≠ '/')).reverse

/-- `path.extname`: from the last dot of the basename to the end; empty when
the basename has no dot or only a leading dot. -/
def extnameList (l : List Char) : List Char :=
  match (basenameList l).reverse.span (fun c => c ≠ '.') with
  | (_, []) => []
  | (after, _ :: before) => if before = [] then [] else '.' :: after.reverse

/-- `path.basename(filePath, path.extname(filePath))`: the basename with its
extension suffix removed (the suffix is dropped only when it is a proper
suffix of the basename, as `path.basename` requires). -/
def basenameNoExtList (l : List Char) : List Char :=
  let b := basenameList l
  let e := extnameList l
  if e ≠ [] ∧ e ≠ b ∧ e.isSuffixOf b then b.take (b.length - e.length) else b

/-- `generateImageName` from the source: basename without extension,
lowercased, non-`[a-z0-9-]` characters replaced by hyphens, hyphen runs
collapsed, one leading and one trailing hyphen stripped. -/
def generateImageName (s : String) : String :=
  String.mk (dropTrailDash (dropLeadDash (collapseGo false
    ((basenameNoExtList s.data).map (fun c => keepOrDash c.toLower)))))

/-- The `supportedFormats` extension list from the `ImageProcessor`
constructor. -/
def supportedFormats : List String :=
  [".jpg", ".jpeg", ".png", ".gif", ".webp", ".bmp", ".tiff"]

/-- `isImageFile`: the lowercased extension is in the supported list. -/
def isImageFile (s : String) : Bool :=
  supportedFormats.contains (String.mk ((extnameList s.data).map Char.toLower))

/-- Specification-side normalization, following the spec text for claim C6:
"lowercase, non-alphanumeric runs collapsed to a single hyphen, no
leading/trailing hyphen".  Each maximal run of non-alphanumeric characters
becomes one hyphen in a single pass. -/
def specCollapseGo : Bool → List Char → List Char
  | _, [] => []
  | prevNon, c :: rest =>
    if isLowerAlnum c then c :: specCollapseGo false rest
    else if prevNon then specCollapseGo true rest
    else '-' :: specCollapseGo true rest

/-- Specification-side normalized name for claim C6: basename without
extension, lowercased, non-alphanumeric runs collapsed to single hyphens,
leading/trailing hyphen stripped. -/
def specNormalizeName (s : String) : String :=
  String.mk (dropTrailDash (dropLeadDash (specCollapseGo false
    ((basenameNoExtList s.data).map Char.toLower))))

/-- Source image metadata, as returned by `getImageMetadata` (the fields the
pipeline consumes: intrinsic dimensions and byte size). -/
structure Metadata where
  width : ℕ
  height : ℕ
  size : ℕ
deriving DecidableEq, Repr

/-- One manifest entry, as built by `processImage` (`imageData`).  Timestamps
are modelled as integers; `compressionTenths` models the `toFixed(1)`
percentage string as tenths of a percent. -/
structure ImageRecord where
  name : String
  filename : String
  extension : String
  url : String
  thumbnailUrl : String
  originalSize : ℕ
  optimizedSize : ℕ
  thumbnailSize : ℕ
  dimOriginal : ℤ × ℤ
  dimOptimized : ℤ × ℤ
  dimThumbnail : ℤ × ℤ
  compressionTenths : ℤ
  processed : Option ℤ
deriving DecidableEq, Repr

/-- The configurable bounding boxes (defaults from the constructor:
optimized 1024x768, thumbnail 400x300). -/
structure Config where
  maxW : ℕ := 1024
  maxH : ℕ := 768
  thumbW : ℕ := 400
  thumbH : ℕ := 300
deriving DecidableEq, Repr

/-- The default configuration of the `ImageProcessor` constructor. -/
def defaultConfig : Config := {}

/-- The in-memory image library: a JavaScript `Map` modelled as an
insertion-ordered association list. -/
abbrev Library := List (String × ImageRecord)

/-- `Map.get` / `Map.has` combined: first binding for a key, if any. -/
def lookupLib : Library → String → Option ImageRecord
  | [], _ => none
  | (k, v) :: rest, n => if k = n then some v else lookupLib rest n

/-- Whether the map has a binding for a key (`Map.has`). -/
def keyMem (lib : Library) (n : String) : Bool :=
  lib.any (fun p => p.1 == n)

/-- `Map.set`: replace the value in place if the key exists (keeping
insertion order), otherwise append a new binding. -/
def upsert (lib : Library) (k : String) (v : ImageRecord) : Library :=
  if keyMem lib k then lib.map (fun p => if p.1 = k then (k, v) else p)
  else lib ++ [(k, v)]

/-- The `imageData` record built by `processImage` on success. -/
def mkRecord (cfg : Config) (outputName : String) (meta : Metadata)
    (optSize thumbSize : ℕ) (now : ℤ) : ImageRecord :=
  { name := outputName
    filename := outputName ++ ".jpg"
    extension := "jpg"
    url := "/images/" ++ outputName ++ ".jpg"
    thumbnailUrl := "/thumbnails/" ++ outputName ++ ".jpg"
    originalSize := meta.size
    optimizedSize := optSize
    thumbnailSize := thumbSize
    dimOriginal := ((meta.width : ℤ), (meta.height : ℤ))
    dimOptimized := computeOptimizedDims meta.width meta.height cfg.maxW cfg.maxH
    dimThumbnail := computeThumbDims meta.width meta.height cfg.thumbW cfg.thumbH
    compressionTenths := jsRound (((meta.size : ℚ) - (optSize : ℚ)) * 1000 / (meta.size : ℚ))
    processed := some now }

/-- The fallible operations one `processImage` call performs, as an oracle:
`metadata = none` models an unreadable/undecodable source (`getImageMetadata`
returns `null`); `optSize`/`thumbSize = none` model a thrown encode or
derivative-write failure (caught by the surrounding `try`); on success they
carry the derivative file sizes.  `now` is the `new Date()` timestamp. -/
structure FileEnv where
  metadata : Option Metadata
  optSize : Option ℕ
  thumbSize : Option ℕ
  now : ℤ
deriving DecidableEq, Repr

/-- `processImage`: on any failure the `try`/`catch` returns `null` and the
library is untouched; on success the record is built, inserted under
`outputName`, and returned. -/
def processImage (cfg : Config) (env : FileEnv) (outputName : String)
    (lib : Library) : Option ImageRecord × Library :=
  match env.metadata with
  | none => (none, lib)
  | some meta =>
    match env.optSize with
    | none => (none, lib)
    | some os =>
      match env.thumbSize with
      | none => (none, lib)
      | some ts =>
        let r := mkRecord cfg outputName meta os ts env.now
        (some r, upsert lib outputName r)

/-- One file of the startup sweep: its directory entry name (or path), its
current modification time, and the oracle for its processing. -/
structure SweepFile where
  path : String
  mtime : ℤ
  env : FileEnv
deriving DecidableEq, Repr

/-- The loop body of `processExistingImages`: skip when the manifest already
has a record whose truthy `processed` timestamp is not older than the file's
mtime; otherwise process. -/
def sweepOne (cfg : Config) (lib : Library) (f : SweepFile) : Library :=
  match lookupLib lib (generateImageName f.path) with
  | some existing =>
    match existing.processed with
    | some p =>
      if f.mtime ≤ p then lib
      else (processImage cfg f.env (generateImageName f.path) lib).2
    | none => (processImage cfg f.env (generateImageName f.path) lib).2
  | none => (processImage cfg f.env (generateImageName f.path) lib).2

/-- `processExistingImages`: filter directory entries to image files, then
process each in order (with the skip guard). -/
def processExistingImages (cfg : Config) (lib : Library)
    (files : List SweepFile) : Library :=
  (files.filter (fun f => isImageFile f.path)).foldl
    (fun acc f => sweepOne cfg acc f) lib

/-- The watcher `add` handler: image files are processed unconditionally —
there is no manifest-timestamp guard here. -/
def watcherOnAdd (cfg : Config) (env : FileEnv) (path : String)
    (lib : Library) : Library :=
  if isImageFile path then (processImage cfg env (generateImageName path) lib).2
  else lib

/-- The watcher `change` handler: identical body to the `add` handler; image
files are processed unconditionally. -/
def watcherOnChange (cfg : Config) (env : FileEnv) (path : String)
    (lib : Library) : Library :=
  if isImageFile path then (processImage cfg env (generateImageName path) lib).2
  else lib

/-- `saveImageLibrary` file payload: the manifest is serialized as the array
of record values (keys are not persisted). -/
def saveImageLibrary (lib : Library) : List ImageRecord :=
  lib.map (fun p => p.2)

/-- `loadImageLibrary` from a parsed manifest array:
`new Map(arr.map(item => [item.name, item]))` keys each record by its own
`name` field; a duplicated name keeps the first position and the last
value. -/
def loadImageLibrary (arr : List ImageRecord) : Library :=
  arr.foldl (fun acc r => upsert acc r.name r) []

/-- `loadImageLibrary` with its `try`/`catch`: the read-and-parse outcome is
an `Except` (error covers both an absent file and unparsable JSON); any error
is caught and yields the empty map — never a raised error. -/
def loadImageLibraryE (raw : Except String (List ImageRecord)) :
    Except String Library :=
  match raw with
  | Except.ok arr => Except.ok (loadImageLibrary arr)
  | Except.error _ => Except.ok []

/-- `saveImageLibrary` with its `try`/`catch`: a write failure is caught and
logged; the in-memory map is returned unchanged either way, and the file
payload exists only when the write succeeded. -/
def saveImageLibraryE (lib : Library) (writeResult : Except String Unit) :
    Except String (Library × Option (List ImageRecord)) :=
  match writeResult with
  | Except.ok _ => Except.ok (lib, some (saveImageLibrary lib))
  | Except.error _ => Except.ok (lib, none)

/-- Total original bytes over all records (`reduce` with `|| 0` defaults). -/
def totalOriginalSize (lib : Library) : ℕ :=
  (saveImageLibrary lib).foldl (fun s r => s + r.originalSize) 0

/-- Total optimized bytes over all records. -/
def totalOptimizedSize (lib : Library) : ℕ :=
  (saveImageLibrary lib).foldl (fun s r => s + r.optimizedSize) 0

/-- Total thumbnail bytes over all records. -/
def totalThumbnailSize (lib : Library) : ℕ :=
  (saveImageLibrary lib).foldl (fun s r => s + r.thumbnailSize) 0

/-- Rendering of `parseFloat(x.toFixed(2))` for a nonnegative value given in
hundredths: trailing zeros of the two decimal places are dropped. -/
def renderHundredths (n : ℕ) : String :=
  let q := n / 100
  let r := n % 100
  if r = 0 then toString q
  else if r % 10 = 0 then toString q ++ "." ++ toString (r / 10)
  else if r < 10 then toString q ++ ".0" ++ toString r
  else toString q ++ "." ++ toString r

/-- `formatFileSize`: `0` renders as "0 Bytes"; otherwise the byte count is
scaled by the power of 1024 given by its floor logarithm (JavaScript computes
it as `Math.floor(Math.log(bytes) / Math.log(1024))`, modelled exactly),
rounded to two decimals with trailing zeros dropped, and suffixed with the
unit name (out-of-range indices render as JavaScript `undefined`). -/
def formatFileSize (bytes : ℕ) : String :=
  if bytes = 0 then "0 Bytes"
  else
    let i := Nat.log 1024 bytes
    let unit := ["Bytes", "KB", "MB", "GB"].getD i "undefined"
    renderHundredths (jsRound ((bytes : ℚ) * 100 / ((1024 : ℚ) ^ i))).toNat
      ++ " " ++ unit

/-- `formatFileSize` applied to the possibly negative `totalSaved` value;
`Math.log` of a negative number is `NaN`, which propagates to the rendered
string. -/
def formatFileSizeZ (z : ℤ) : String :=
  if z < 0 then "NaN undefined" else formatFileSize z.toNat

/-- Rendering of `x.toFixed(1)` for a value given in tenths (always shows
exactly one decimal place). -/
def renderTenthsZ (z : ℤ) : String :=
  if z < 0 then "-" ++ toString ((-z).toNat / 10) ++ "." ++ toString ((-z).toNat % 10)
  else toString (z.toNat / 10) ++ "." ++ toString (z.toNat % 10)

/-- The object returned by `getLibraryStats` (byte totals are already
human-formatted strings in the source). -/
structure LibraryStats where
  totalImages : ℕ
  totalOriginalSize : String
  totalOptimizedSize : String
  totalThumbnailSize : String
  totalSaved : String
  avgCompression : String
deriving DecidableEq, Repr

/-- `getLibraryStats`: aggregates byte totals across all records, formats
them, and computes the overall compression percentage
`(totalSaved / totalOriginal * 100).toFixed(1)` (the number `0`, rendered
"0", when `totalOriginal` is zero), suffixed with `%`. -/
def getLibraryStats (lib : Library) : LibraryStats :=
  { totalImages := lib.length
    totalOriginalSize := formatFileSize (totalOriginalSize lib)
    totalOptimizedSize := formatFileSize (totalOptimizedSize lib)
    totalThumbnailSize := formatFileSize (totalThumbnailSize lib)
    totalSaved := formatFileSizeZ ((totalOriginalSize lib : ℤ) - (totalOptimizedSize lib : ℤ))
    avgCompression :=
      (if 0 < totalOriginalSize lib then
        renderTenthsZ (jsRound ((((totalOriginalSize lib : ℤ) -
          (totalOptimizedSize lib : ℤ) : ℤ) : ℚ) * 1000 / (totalOriginalSize lib : ℚ)))
       else "0") ++ "%" }

/-- Concrete fixture: a literal manifest record with 1000 original and 400
optimized bytes (the first record of the spec's compression example). -/
def recA : ImageRecord :=
  { name := "a", filename := "a.jpg", extension := "jpg", url := "/images/a.jpg",
    thumbnailUrl := "/thumbnails/a.jpg", originalSize := 1000, optimizedSize := 400,
    thumbnailSize := 100, dimOriginal := (800, 600), dimOptimized := (800, 600),
    dimThumbnail := (400, 300), compressionTenths := 600, processed := some 1 }

/-- Concrete fixture: a literal manifest record with 2000 original and 1000
optimized bytes (the second record of the spec's compression example). -/
def recB : ImageRecord :=
  { name := "b", filename := "b.jpg", extension := "jpg", url := "/images/b.jpg",
    thumbnailUrl := "/thumbnails/b.jpg", originalSize := 2000, optimizedSize := 1000,
    thumbnailSize := 200, dimOriginal := (800, 600), dimOptimized := (800, 600),
    dimThumbnail := (400, 300), compressionTenths := 500, processed := some 2 }

/-- Concrete fixture: the two-record manifest of the spec's compression
example. -/
def statsLib : Library := [("a", recA), ("b", recB)]

/-- Concrete fixture: source metadata of an 800x600, 1000-byte image. -/
def sampleMeta : Metadata := { width := 800, height := 600, size := 1000 }

/-- Concrete fixture: a fully successful processing oracle at time 1. -/
def envOk1 : FileEnv :=
  { metadata := some sampleMeta, optSize := some 400, thumbSize := some 100, now := 1 }

/-- Concrete fixture: a fully successful processing oracle at time 20. -/
def envOk20 : FileEnv :=
  { metadata := some sampleMeta, optSize := some 400, thumbSize := some 100, now := 20 }

/-- Concrete fixture: a fully successful processing oracle at time 99. -/
def envOk99 : FileEnv :=
  { metadata := some sampleMeta, optSize := some 350, thumbSize := some 90, now := 99 }

/-- Concrete fixture: an oracle for a corrupted source (metadata extraction
fails). -/
def envBad : FileEnv :=
  { metadata := none, optSize := none, thumbSize := none, now := 0 }

/-- Concrete fixture: the record of a successful processing of "img" at
time 10. -/
def recImg10 : ImageRecord := mkRecord defaultConfig "img" sampleMeta 400 100 10

/-- Concrete fixture: a manifest already holding a current record for
"img". -/
def libImg : Library := [("img", recImg10)]

/-- Concrete fixture: the sweep view of `img.jpg` whose mtime 5 is older than
the manifest record's processed time 10. -/
def sweepImgOld : SweepFile := { path := "img.jpg", mtime := 5, env := envOk20 }

/-- Concrete fixture: a healthy batch file. -/
def fileOne : SweepFile := { path := "one.jpg", mtime := 0, env := envOk1 }

/-- Concrete fixture: a corrupted batch file. -/
def fileBad : SweepFile := { path := "bad.jpg", mtime := 0, env := envBad }

/-- Concrete fixture: another healthy batch file. -/
def fileTwo : SweepFile := { path := "two.jpg", mtime := 0, env := envOk99 }

/-- Concrete fixture: a three-file batch whose middle file is corrupted. -/
def batchFiles : List SweepFile := [fileOne, fileBad, fileTwo]

/-- Concrete fixture: the library after processing `Cat.jpg`. -/
def libCat1 : Library :=
  (processImage defaultConfig envOk1 (generateImageName "Cat.jpg") []).2

/-- Concrete fixture: the library after then processing `cat.png`, whose
normalized name collides with `Cat.jpg`. -/
def libCat2 : Library :=
  (processImage defaultConfig envOk99 (generateImageName "cat.png") libCat1).2

lemma jsRound_le_of_lt_half {x : ℚ} {z : ℤ} (hx : x < (z : ℚ) + 1/2) :
    jsRound x ≤ z := by
  unfold jsRound
  rw [Int.floor_le_iff]
  linarith

lemma jsRound_abs_sub_le (x : ℚ) : |((jsRound x : ℤ) : ℚ) - x| ≤ 1/2 := by
  unfold jsRound
  rw [abs_sub_le_iff]
  constructor
  · have h := Int.floor_le (x + 1/2)
    linarith
  · have h := Int.lt_floor_add_one (x + 1/2)
    linarith

lemma computeOptimizedDims_within_box (w h bw bh : ℕ)
    (hw : 0 < w) (hh : 0 < h) (hbw : 0 < bw) (hbh : 0 < bh) :
    (computeOptimizedDims w h bw bh).1 ≤ (bw : ℤ) ∧
    (computeOptimizedDims w h bw bh).2 ≤ (bh : ℤ) := by
  have hw' : (0 : ℚ) < (w : ℚ) := by exact_mod_cast hw
  have hh' : (0 : ℚ) < (h : ℚ) := by exact_mod_cast hh
  have hbh' : (0 : ℚ) < (bh : ℚ) := by exact_mod_cast hbh
  unfold computeOptimizedDims
  by_cases hc : w > bw ∨ h > bh
  · rw [if_pos hc]
    by_cases har : (w : ℚ) / (h : ℚ) > (bw : ℚ) / (bh : ℚ)
    · rw [if_pos har]
      refine ⟨le_refl _, ?_⟩
      apply jsRound_le_of_lt_half
      have hcross : (bw : ℚ) * h < w * bh := by
        have := (div_lt_div_iff hbh' hh').mp har
        linarith
      have hlt : (bw : ℚ) / ((w : ℚ) / (h : ℚ)) < (bh : ℚ) := by
        rw [div_div_eq_mul_div, div_lt_iff hw']
        nlinarith
      push_cast
      linarith
    · rw [if_neg har]
      refine ⟨?_, le_refl _⟩
      apply jsRound_le_of_lt_half
      have hcross : (w : ℚ) * bh ≤ bw * h := by
        have := (div_le_div_iff hh' hbh').mp (not_lt.mp har)
        linarith
      have hle : (bh : ℚ) * ((w : ℚ) / (h : ℚ)) ≤ (bw : ℚ) := by
        rw [mul_div_assoc'] at *
        rw [div_le_iff hh']
        nlinarith
      push_cast
      linarith
  · rw [if_neg hc]
    push_neg at hc
    constructor
    · show (w : ℤ) ≤ (bw : ℤ)
      exact_mod_cast hc.1
    · show (h : ℤ) ≤ (bh : ℤ)
      exact_mod_cast hc.2

lemma computeOptimizedDims_noUpscale (w h bw bh : ℕ)
    (hw : w ≤ bw) (hh : h ≤ bh) :
    computeOptimizedDims w h bw bh = ((w : ℤ), (h : ℤ)) := by
  unfold computeOptimizedDims
  rw [if_neg]
  push_neg
  exact ⟨hw, hh⟩

lemma computeOptimizedDims_wide (w h bw bh : ℕ)
    (har : (w : ℚ) / (h : ℚ) > (bw : ℚ) / (bh : ℚ)) (hc : w > bw ∨ h > bh) :
    computeOptimizedDims w h bw bh =
      ((bw : ℤ), jsRound ((bw : ℚ) * (h : ℚ) / (w : ℚ))) := by
  unfold computeOptimizedDims
  rw [if_pos hc, if_pos har, div_div_eq_mul_div]

lemma computeOptimizedDims_tall (w h bw bh : ℕ)
    (har : ¬ ((w : ℚ) / (h : ℚ) > (bw : ℚ) / (bh : ℚ))) (hc : w > bw ∨ h > bh) :
    computeOptimizedDims w h bw bh =
      (jsRound ((bh : ℚ) * (w : ℚ) / (h : ℚ)), (bh : ℤ)) := by
  unfold computeOptimizedDims
  rw [if_pos hc, if_neg har, mul_div_assoc']

lemma collapseGo_keepOrDash (l : List Char) :
    ∀ b, collapseGo b (l.map keepOrDash) = specCollapseGo b l := by
  induction l with
  | nil => intro b; rfl
  | cons c rest ih =>
    intro b
    by_cases ha : isLowerAlnum c = true
    · have hd : ¬ (c = '-') := by
        intro hc
        rw [hc] at ha
        simp [isLowerAlnum] at ha
      have hk : keepOrDash c = c := by
        unfold keepOrDash
        rw [ha]
        simp
      simp only [List.map_cons, collapseGo, specCollapseGo, hk, ha,
        if_pos, if_neg hd, if_true, ih]
    · by_cases hd : c = '-'
      · have hk : keepOrDash c = '-' := by
          unfold keepOrDash
          rw [hd]
          simp
        have ha' : isLowerAlnum c = false := by
          revert ha
          cases isLowerAlnum c <;> simp
        simp [collapseGo, specCollapseGo, hk, ha', ih]
      · have ha' : isLowerAlnum c = false := by
          revert ha
          cases isLowerAlnum c <;> simp
        have hk : keepOrDash c = '-' := by
          unfold keepOrDash
          rw [ha']
          simp [hd]
        simp [collapseGo, specCollapseGo, hk, ha', ih]

lemma keyMem_cons (k : String) (v : ImageRecord) (lib : Library) (n : String) :
    keyMem ((k, v) :: lib) n = ((k == n) || keyMem lib n) := by
  simp [keyMem, List.any_cons]

lemma keyMem_append (l1 l2 : Library) (n : String) :
    keyMem (l1 ++ l2) n = (keyMem l1 n || keyMem l2 n) := by
  simp [keyMem, List.any_append]

lemma lookupLib_map_replace_self (lib : Library) (k : String) (v : ImageRecord)
    (hmem : keyMem lib k = true) :
    lookupLib (lib.map (fun p => if p.1 = k then (k, v) else p)) k = some v := by
  induction lib with
  | nil => simp [keyMem] at hmem
  | cons q rest ih =>
    obtain ⟨k', v'⟩ := q
    by_cases hk : k' = k
    · subst hk
      simp only [List.map_cons]
      simp [lookupLib]
    · rw [keyMem_cons] at hmem
      have hmem' : keyMem rest k = true := by
        have hne : (k' == k) = false := by
          simp [hk]
        rw [hne] at hmem
        simpa using hmem
      simp only [List.map_cons]
      rw [if_neg hk]
      show lookupLib ((k', v') :: _) k = some v
      rw [lookupLib]
      rw [if_neg hk]
      exact ih hmem'

lemma lookupLib_append (l1 l2 : Library) (n : String) :
    lookupLib (l1 ++ l2) n =
      match lookupLib l1 n with
      | some v => some v
      | none => lookupLib l2 n := by
  induction l1 with
  | nil => simp [lookupLib]
  | cons q rest ih =>
    obtain ⟨k, v⟩ := q
    by_cases hk : k = n
    · simp [lookupLib, hk]
    · simp only [List.cons_append, lookupLib, if_neg hk]
      exact ih

lemma lookupLib_upsert_self (lib : Library) (k : String) (v : ImageRecord) :
    lookupLib (upsert lib k v) k = some v := by
  unfold upsert
  by_cases hmem : keyMem lib k = true
  · rw [if_pos hmem]
    exact lookupLib_map_replace_self lib k v hmem
  · rw [if_neg hmem]
    rw [lookupLib_append]
    have hnone : lookupLib lib k = none := by
      induction lib with
      | nil => rfl
      | cons q rest ih =>
        obtain ⟨k', v'⟩ := q
        rw [keyMem_cons] at hmem
        by_cases hk : k' = k
        · exfalso
          apply hmem
          simp [hk]
        · rw [lookupLib, if_neg hk]
          apply ih
          intro hrest
          apply hmem
          rw [hrest]
          simp
    rw [hnone]
    simp [lookupLib]

lemma lookupLib_upsert_ne (lib : Library) (k : String) (v : ImageRecord)
    (n : String) (hne : n ≠ k) :
    lookupLib (upsert lib k v) n = lookupLib lib n := by
  unfold upsert
  by_cases hmem : keyMem lib k = true
  · rw [if_pos hmem]
    clear hmem
    induction lib with
    | nil => rfl
    | cons q rest ih =>
      obtain ⟨k', v'⟩ := q
      by_cases hk : k' = k
      · subst hk
        simp only [List.map_cons, if_pos rfl]
        rw [lookupLib, lookupLib, if_neg (fun h => hne h.symm),
          if_neg (fun h => hne h.symm)]
        exact ih
      · simp only [List.map_cons, if_neg hk]
        rw [lookupLib, lookupLib]
        by_cases hk' : k' = n
        · rw [if_pos hk', if_pos hk']
        · rw [if_neg hk', if_neg hk']
          exact ih
  · rw [if_neg hmem]
    rw [lookupLib_append]
    cases hl : lookupLib lib n with
    | some v' => rfl
    | none =>
      show lookupLib [(k, v)] n = none
      rw [lookupLib, if_neg (fun h => hne h.symm)]
      rfl

lemma lookupLib_upsert_isSome (lib : Library) (k : String) (v : ImageRecord)
    (n : String) (h : (lookupLib lib n).isSome = true) :
    (lookupLib (upsert lib k v) n).isSome = true := by
  by_cases hk : n = k
  · subst hk
    rw [lookupLib_upsert_self]
    rfl
  · rw [lookupLib_upsert_ne lib k v n hk]
    exact h

lemma processImage_fail (cfg : Config) (env : FileEnv) (nm : String)
    (lib : Library)
    (h : env.metadata = none ∨ env.optSize = none ∨ env.thumbSize = none) :
    processImage cfg env nm lib = (none, lib) := by
  unfold processImage
  rcases h with h | h | h
  · rw [h]
  · cases hm : env.metadata with
    | none => rfl
    | some m => rw [h]
  · cases hm : env.metadata with
    | none => rfl
    | some m =>
      cases ho : env.optSize with
      | none => rfl
      | some os => rw [h]

lemma processImage_ok (cfg : Config) (env : FileEnv) (nm : String)
    (lib : Library) (m : Metadata) (os ts : ℕ)
    (hm : env.metadata = some m) (ho : env.optSize = some os)
    (ht : env.thumbSize = some ts) :
    processImage cfg env nm lib =
      (some (mkRecord cfg nm m os ts env.now),
       upsert lib nm (mkRecord cfg nm m os ts env.now)) := by
  unfold processImage
  rw [hm, ho, ht]

lemma processImage_snd_cases (cfg : Config) (env : FileEnv) (nm : String)
    (lib : Library) :
    (processImage cfg env nm lib).2 = lib ∨
    ∃ r, r.name = nm ∧ (processImage cfg env nm lib).2 = upsert lib nm r := by
  cases hm : env.metadata with
  | none => exact Or.inl (by rw [processImage_fail cfg env nm lib (Or.inl hm)])
  | some m =>
    cases ho : env.optSize with
    | none => exact Or.inl (by rw [processImage_fail cfg env nm lib (Or.inr (Or.inl ho))])
    | some os =>
      cases ht : env.thumbSize with
      | none => exact Or.inl (by rw [processImage_fail cfg env nm lib (Or.inr (Or.inr ht))])
      | some ts =>
        refine Or.inr ⟨mkRecord cfg nm m os ts env.now, rfl, ?_⟩
        rw [processImage_ok cfg env nm lib m os ts hm ho ht]

lemma sweepOne_cases (cfg : Config) (lib : Library) (f : SweepFile) :
    sweepOne cfg lib f = lib ∨
    ∃ r, sweepOne cfg lib f = upsert lib (generateImageName f.path) r := by
  unfold sweepOne
  cases hl : lookupLib lib (generateImageName f.path) with
  | none =>
    dsimp only
    rcases processImage_snd_cases cfg f.env (generateImageName f.path) lib with
      h | ⟨r, _, h⟩
    · exact Or.inl h
    · exact Or.inr ⟨r, h⟩
  | some existing =>
    dsimp only
    cases hp : existing.processed with
    | none =>
      dsimp only
      rcases processImage_snd_cases cfg f.env (generateImageName f.path) lib with
        h | ⟨r, _, h⟩
      · exact Or.inl h
      · exact Or.inr ⟨r, h⟩
    | some p =>
      dsimp only
      by_cases hm : f.mtime ≤ p
      · rw [if_pos hm]
        exact Or.inl rfl
      · rw [if_neg hm]
        rcases processImage_snd_cases cfg f.env (generateImageName f.path) lib with
          h | ⟨r, _, h⟩
        · exact Or.inl h
        · exact Or.inr ⟨r, h⟩

lemma sweepOne_meta_none (cfg : Config) (lib : Library) (f : SweepFile)
    (h : f.env.metadata = none) : sweepOne cfg lib f = lib := by
  unfold sweepOne
  have hp := processImage_fail cfg f.env (generateImageName f.path) lib (Or.inl h)
  cases hl : lookupLib lib (generateImageName f.path) with
  | none =>
    dsimp only
    rw [hp]
  | some existing =>
    dsimp only
    cases hq : existing.processed with
    | none =>
      dsimp only
      rw [hp]
    | some p =>
      dsimp only
      by_cases hm : f.mtime ≤ p
      · rw [if_pos hm]
      · rw [if_neg hm, hp]

lemma sweep_fold_untouched (cfg : Config) (nm : String) :
    ∀ (files : List SweepFile) (lib : Library),
      (∀ f ∈ files, generateImageName f.path = nm → f.env.metadata = none) →
      lookupLib (files.foldl (fun acc f => sweepOne cfg acc f) lib) nm =
        lookupLib lib nm := by
  intro files
  induction files with
  | nil => intro lib _; rfl
  | cons f rest ih =>
    intro lib hcoll
    rw [List.foldl_cons]
    rw [ih (sweepOne cfg lib f) (fun g hg => hcoll g (List.mem_cons_of_mem f hg))]
    by_cases hn : generateImageName f.path = nm
    · rw [sweepOne_meta_none cfg lib f (hcoll f (List.mem_cons_self f rest) hn)]
    · rcases sweepOne_cases cfg lib f with hcase | ⟨r, hcase⟩
      · rw [hcase]
      · rw [hcase, lookupLib_upsert_ne _ _ _ _ (fun hsym => hn hsym.symm)]

lemma sweep_fold_isSome_mono (cfg : Config) (nm : String) :
    ∀ (files : List SweepFile) (lib : Library),
      (lookupLib lib nm).isSome = true →
      (lookupLib (files.foldl (fun acc f => sweepOne cfg acc f) lib) nm).isSome
        = true := by
  intro files
  induction files with
  | nil => intro lib h; exact h
  | cons f rest ih =>
    intro lib h
    rw [List.foldl_cons]
    apply ih
    rcases sweepOne_cases cfg lib f with hcase | ⟨r, hcase⟩
    · rw [hcase]
      exact h
    · rw [hcase]
      exact lookupLib_upsert_isSome _ _ _ _ h

lemma sweepOne_self_isSome (cfg : Config) (lib : Library) (f : SweepFile)
    (hm : f.env.metadata ≠ none) (ho : f.env.optSize ≠ none)
    (ht : f.env.thumbSize ≠ none) :
    (lookupLib (sweepOne cfg lib f) (generateImageName f.path)).isSome = true := by
  obtain ⟨m, hm'⟩ := Option.ne_none_iff_exists'.mp hm
  obtain ⟨os, ho'⟩ := Option.ne_none_iff_exists'.mp ho
  obtain ⟨ts, ht'⟩ := Option.ne_none_iff_exists'.mp ht
  have hok := processImage_ok cfg f.env (generateImageName f.path) lib m os ts hm' ho' ht'
  unfold sweepOne
  cases hl : lookupLib lib (generateImageName f.path) with
  | none =>
    dsimp only
    rw [hok]
    show (lookupLib (upsert lib _ _) _).isSome = true
    rw [lookupLib_upsert_self]
    rfl
  | some existing =>
    dsimp only
    cases hp : existing.processed with
    | none =>
      dsimp only
      rw [hok]
      show (lookupLib (upsert lib _ _) _).isSome = true
      rw [lookupLib_upsert_self]
      rfl
    | some p =>
      dsimp only
      by_cases hmt : f.mtime ≤ p
      · rw [if_pos hmt, hl]
        rfl
      · rw [if_neg hmt, hok]
        show (lookupLib (upsert lib _ _) _).isSome = true
        rw [lookupLib_upsert_self]
        rfl

lemma sweep_fold_self_isSome (cfg : Config) :
    ∀ (files : List SweepFile) (lib : Library) (f : SweepFile),
      f ∈ files → f.env.metadata ≠ none → f.env.optSize ≠ none →
      f.env.thumbSize ≠ none →
      (lookupLib (files.foldl (fun acc g => sweepOne cfg acc g) lib)
        (generateImageName f.path)).isSome = true := by
  intro files
  induction files with
  | nil =>
    intro lib f hf
    exact absurd hf (List.not_mem_nil f)
  | cons g rest ih =>
    intro lib f hf hm ho ht
    rw [List.foldl_cons]
    rcases List.mem_cons.mp hf with heq | hmem
    · subst heq
      exact sweep_fold_isSome_mono cfg _ rest _
        (sweepOne_self_isSome cfg lib f hm ho ht)
    · exact ih (sweepOne cfg lib g) f hmem hm ho ht

lemma upsert_key_name_inv (lib : Library) (k : String) (v : ImageRecord)
    (hv : v.name = k) (hinv : ∀ p ∈ lib, p.2.name = p.1) :
    ∀ p ∈ upsert lib k v, p.2.name = p.1 := by
  intro p hp
  unfold upsert at hp
  by_cases hmem : keyMem lib k = true
  · rw [if_pos hmem] at hp
    obtain ⟨q, hq, hpq⟩ := List.mem_map.mp hp
    by_cases hk : q.1 = k
    · rw [if_pos hk] at hpq
      subst hpq
      exact hv
    · rw [if_neg hk] at hpq
      subst hpq
      exact hinv q hq
  · rw [if_neg hmem] at hp
    rcases List.mem_append.mp hp with h | h
    · exact hinv p h
    · rw [List.mem_singleton] at h
      subst h
      exact hv

lemma loadImageLibrary_inv_aux :
    ∀ (arr : List ImageRecord) (acc : Library),
      (∀ p ∈ acc, p.2.name = p.1) →
      ∀ p ∈ arr.foldl (fun a r => upsert a r.name r) acc, p.2.name = p.1 := by
  intro arr
  induction arr with
  | nil =>
    intro acc hacc p hp
    exact hacc p hp
  | cons r rest ih =>
    intro acc hacc p hp
    rw [List.foldl_cons] at hp
    exact ih (upsert acc r.name r) (upsert_key_name_inv acc r.name r rfl hacc) p hp

lemma upsert_not_mem (lib : Library) (k : String) (v : ImageRecord)
    (h : keyMem lib k = false) : upsert lib k v = lib ++ [(k, v)] := by
  unfold upsert
  rw [h]
  simp

lemma load_fold_append :
    ∀ (arr : List ImageRecord) (acc : Library),
      (∀ r ∈ arr, keyMem acc r.name = false) →
      (arr.map (fun r => r.name)).Nodup →
      arr.foldl (fun a r => upsert a r.name r) acc =
        acc ++ arr.map (fun r => (r.name, r)) := by
  intro arr
  induction arr with
  | nil =>
    intro acc _ _
    simp
  | cons r rest ih =>
    intro acc hmem hnodup
    rw [List.map_cons, List.nodup_cons] at hnodup
    rw [List.foldl_cons, upsert_not_mem acc r.name r (hmem r (List.mem_cons_self r rest))]
    rw [ih (acc ++ [(r.name, r)]) ?_ hnodup.2]
    · simp
    · intro r' hr'
      rw [keyMem_append]
      rw [hmem r' (List.mem_cons_of_mem r hr')]
      simp only [Bool.false_or]
      show ((r.name == r'.name) || false) = false
      simp only [Bool.or_false, beq_eq_false_iff_ne, ne_eq]
      intro heq
      exact hnodup.1 (heq ▸ List.mem_map_of_mem (fun q => q.name) hr')

lemma formatFileSize_3000 : formatFileSize 3000 = "2.93 KB" := by
  have hlog : Nat.log 1024 3000 = 1 := by
    rw [Nat.log_eq_of_pow_le_of_lt_pow] <;> norm_num
  have hround : jsRound (((3000 : ℕ) : ℚ) * 100 / ((1024 : ℚ) ^ 1)) = 293 := by
    norm_num [jsRound]
  unfold formatFileSize
  rw [if_neg (by norm_num)]
  simp only [hlog, hround]
  rfl

lemma formatFileSize_1400 : formatFileSize 1400 = "1.37 KB" := by
  have hlog : Nat.log 1024 1400 = 1 := by
    rw [Nat.log_eq_of_pow_le_of_lt_pow] <;> norm_num
  have hround : jsRound (((1400 : ℕ) : ℚ) * 100 / ((1024 : ℚ) ^ 1)) = 137 := by
    norm_num [jsRound]
  unfold formatFileSize
  rw [if_neg (by norm_num)]
  simp only [hlog, hround]
  rfl

lemma statsLib_totalOriginal : totalOriginalSize statsLib = 3000 := rfl

lemma statsLib_totalOptimized : totalOptimizedSize statsLib = 1400 := rfl

lemma getLibraryStats_statsLib_original :
    (getLibraryStats statsLib).totalOriginalSize = "2.93 KB" := by
  show formatFileSize (totalOriginalSize statsLib) = "2.93 KB"
  rw [statsLib_totalOriginal, formatFileSize_3000]

lemma getLibraryStats_statsLib_optimized :
    (getLibraryStats statsLib).totalOptimizedSize = "1.37 KB" := by
  show formatFileSize (totalOptimizedSize statsLib) = "1.37 KB"
  rw [statsLib_totalOptimized, formatFileSize_1400]

lemma getLibraryStats_statsLib_avg :
    (getLibraryStats statsLib).avgCompression = "53.3%" := by
  show (if 0 < totalOriginalSize statsLib then
      renderTenthsZ (jsRound ((((totalOriginalSize statsLib : ℤ) -
        (totalOptimizedSize statsLib : ℤ) : ℤ) : ℚ) * 1000 /
        (totalOriginalSize statsLib : ℚ)))
    else "0") ++ "%" = "53.3%"
  rw [statsLib_totalOriginal, statsLib_totalOptimized]
  rw [if_pos (by norm_num)]
  have hj : jsRound (((((3000 : ℕ) : ℤ) - ((1400 : ℕ) : ℤ) : ℤ) : ℚ) * 1000 /
      ((3000 : ℕ) : ℚ)) = 533 := by
    norm_num [jsRound]
  rw [hj]
  rfl

/-- Claim C1 (amended): for positive source dimensions and bounding box, the
dimensions computed by the optimized-resize step never exceed the box; when
the source is strictly wider than the box (greater aspect ratio) and needs
resizing, the width is clamped to the box width and the height is the half-up
rounding of the exact aspect-preserving value `bw*h/w` (within 1/2 of it);
otherwise, when resizing is needed, the height is clamped and the width is the
rounding of `bh*w/h`.  A 2000x1000 source with box 1024x768 yields 1024x512
(shown in the witness).  The claim's clause `abs(ow/oh - w/h) <= epsilon` for
a small fixed epsilon does not hold: the derived dimension may round to 0 for
extreme aspect ratios (see the counterexample), so the rounding guarantee is
stated on the derived dimension itself. -/
theorem c1_resize_bounded_aspect (w h bw bh : ℕ)
    (hw : 0 < w) (hh : 0 < h) (hbw : 0 < bw) (hbh : 0 < bh) :
    (computeOptimizedDims w h bw bh).1 ≤ (bw : ℤ) ∧
    (computeOptimizedDims w h bw bh).2 ≤ (bh : ℤ) ∧
    ((w : ℚ) / (h : ℚ) > (bw : ℚ) / (bh : ℚ) → (w > bw ∨ h > bh) →
      (computeOptimizedDims w h bw bh).1 = (bw : ℤ) ∧
      |((computeOptimizedDims w h bw bh).2 : ℚ) - (bw : ℚ) * (h : ℚ) / (w : ℚ)| ≤ 1/2) ∧
    (¬ ((w : ℚ) / (h : ℚ) > (bw : ℚ) / (bh : ℚ)) → (w > bw ∨ h > bh) →
      (computeOptimizedDims w h bw bh).2 = (bh : ℤ) ∧
      |((computeOptimizedDims w h bw bh).1 : ℚ) - (bh : ℚ) * (w : ℚ) / (h : ℚ)| ≤ 1/2) := by
  obtain ⟨h1, h2⟩ := computeOptimizedDims_within_box w h bw bh hw hh hbw hbh
  refine ⟨h1, h2, ?_, ?_⟩
  · intro har hc
    rw [computeOptimizedDims_wide w h bw bh har hc]
    exact ⟨rfl, jsRound_abs_sub_le _⟩
  · intro har hc
    rw [computeOptimizedDims_tall w h bw bh har hc]
    exact ⟨rfl, jsRound_abs_sub_le _⟩

/-- Claim C1 witness: the theorem applied at the claim's own example, a
2000x1000 source with box 1024x768, which indeed yields 1024x512. -/
theorem c1_resize_bounded_aspect_witness :
    ((computeOptimizedDims 2000 1000 1024 768).1 ≤ (1024 : ℤ) ∧
     (computeOptimizedDims 2000 1000 1024 768).2 ≤ (768 : ℤ) ∧
     ((2000 : ℚ) / (1000 : ℚ) > (1024 : ℚ) / (768 : ℚ) → (2000 > 1024 ∨ 1000 > 768) →
       (computeOptimizedDims 2000 1000 1024 768).1 = (1024 : ℤ) ∧
       |((computeOptimizedDims 2000 1000 1024 768).2 : ℚ) -
         (1024 : ℚ) * (1000 : ℚ) / (2000 : ℚ)| ≤ 1/2) ∧
     (¬ ((2000 : ℚ) / (1000 : ℚ) > (1024 : ℚ) / (768 : ℚ)) → (2000 > 1024 ∨ 1000 > 768) →
       (computeOptimizedDims 2000 1000 1024 768).2 = (768 : ℤ) ∧
       |((computeOptimizedDims 2000 1000 1024 768).1 : ℚ) -
         (768 : ℚ) * (2000 : ℚ) / (1000 : ℚ)| ≤ 1/2)) ∧
    computeOptimizedDims 2000 1000 1024 768 = (1024, 512) := by
  constructor
  · exact c1_resize_bounded_aspect 2000 1000 1024 768
      (by norm_num) (by norm_num) (by norm_num) (by norm_num)
  · norm_num [computeOptimizedDims, jsRound]

/-- Claim C1 counterexample: a 4000x1 source with box 1024x768 yields computed
dimensions 1024x0 — the height rounds to zero, so the output aspect ratio
`ow/oh` is undefined (0 under rational division by zero) and differs from the
source aspect ratio 4000 by far more than any small epsilon. -/
theorem c1_counterexample :
    computeOptimizedDims 4000 1 1024 768 = (1024, 0) ∧
    ¬ |((computeOptimizedDims 4000 1 1024 768).1 : ℚ) /
        ((computeOptimizedDims 4000 1 1024 768).2 : ℚ) -
        (4000 : ℚ) / (1 : ℚ)| ≤ 1 := by
  have h : computeOptimizedDims 4000 1 1024 768 = (1024, 0) := by
    norm_num [computeOptimizedDims, jsRound]
  refine ⟨h, ?_⟩
  rw [h]
  norm_num

/-- Claim C2 (amended): the no-upscaling guarantee holds for the optimized
invocation — when the source fits inside the box in both dimensions the
computed output dimensions equal the source dimensions exactly.  The
thumbnail invocation has no such guard: its computed dimensions always clamp
one side to the thumbnail box, even for sources smaller than the box (the
`withoutEnlargement` flag passed to the encoder limits the actual pixel data,
but not the computed/recorded dimensions). -/
theorem c2_no_upscale_optimized_only :
    (∀ w h bw bh : ℕ, w ≤ bw → h ≤ bh →
      computeOptimizedDims w h bw bh = ((w : ℤ), (h : ℤ))) ∧
    (∀ w h tw th : ℕ,
      (computeThumbDims w h tw th).1 = (tw : ℤ) ∨
      (computeThumbDims w h tw th).2 = (th : ℤ)) := by
  constructor
  · exact computeOptimizedDims_noUpscale
  · intro w h tw th
    unfold computeThumbDims
    by_cases har : (w : ℚ) / (h : ℚ) > (tw : ℚ) / (th : ℚ)
    · rw [if_pos har]
      exact Or.inl rfl
    · rw [if_neg har]
      exact Or.inr rfl

/-- Claim C2 witness: the theorem applied at a 50x50 source inside the default
optimized box (unchanged) and a 100x100 source with the thumbnail box. -/
theorem c2_no_upscale_optimized_only_witness :
    computeOptimizedDims 50 50 1024 768 = ((50 : ℤ), (50 : ℤ)) ∧
    ((computeThumbDims 100 100 400 300).1 = (400 : ℤ) ∨
     (computeThumbDims 100 100 400 300).2 = (300 : ℤ)) :=
  ⟨c2_no_upscale_optimized_only.1 50 50 1024 768 (by norm_num) (by norm_num),
   c2_no_upscale_optimized_only.2 100 100 400 300⟩

/-- Claim C2 counterexample: a 100x100 source with the default 400x300
thumbnail box gets computed thumbnail dimensions 300x300, not 100x100 — the
thumbnail dimension computation upscales sources smaller than the box. -/
theorem c2_counterexample :
    computeThumbDims 100 100 400 300 = (300, 300) ∧
    ((300 : ℤ), (300 : ℤ)) ≠ (((100 : ℕ) : ℤ), ((100 : ℕ) : ℤ)) := by
  constructor
  · norm_num [computeThumbDims, jsRound]
  · norm_num

/-- Claim C3 (amended): the manifest-timestamp skip guard exists only in the
startup sweep: there, a file whose manifest record has a `processed`
timestamp not older than the file's mtime is skipped and the library (hence
its record) is left identical.  The watcher `add`/`change` handlers invoke
processing unconditionally — they consult neither the manifest nor the mtime
— so a watcher event on an unchanged file re-derives the record with a fresh
`processed` timestamp (see the counterexample). -/
theorem c3_skip_guard_sweep_only :
    (∀ (cfg : Config) (lib : Library) (f : SweepFile) (r : ImageRecord) (p : ℤ),
      lookupLib lib (generateImageName f.path) = some r →
      r.processed = some p → f.mtime ≤ p →
      sweepOne cfg lib f = lib) ∧
    (∀ (cfg : Config) (env : FileEnv) (path : String) (lib : Library),
      isImageFile path = true →
      watcherOnChange cfg env path lib =
        (processImage cfg env (generateImageName path) lib).2 ∧
      watcherOnAdd cfg env path lib =
        (processImage cfg env (generateImageName path) lib).2) := by
  constructor
  · intro cfg lib f r p hl hr hm
    unfold sweepOne
    rw [hl]
    dsimp only
    rw [hr]
    dsimp only
    rw [if_pos hm]
  · intro cfg env path lib himg
    constructor
    · unfold watcherOnChange
      rw [if_pos himg]
    · unfold watcherOnAdd
      rw [if_pos himg]

/-- Claim C3 witness: the theorem applied to a manifest holding a record for
`img` processed at time 10 and a sweep file with mtime 5 (skipped, library
identical), and to the watcher handlers on `img.jpg` (which process
unconditionally). -/
theorem c3_skip_guard_sweep_only_witness :
    sweepOne defaultConfig libImg sweepImgOld = libImg ∧
    (watcherOnChange defaultConfig envOk20 "img.jpg" libImg =
      (processImage defaultConfig envOk20 (generateImageName "img.jpg") libImg).2 ∧
     watcherOnAdd defaultConfig envOk20 "img.jpg" libImg =
      (processImage defaultConfig envOk20 (generateImageName "img.jpg") libImg).2) :=
  ⟨c3_skip_guard_sweep_only.1 defaultConfig libImg sweepImgOld recImg10 10
      rfl rfl (by decide),
   c3_skip_guard_sweep_only.2 defaultConfig envOk20 "img.jpg" libImg rfl⟩

/-- Claim C3 counterexample: the manifest holds a record for `img` processed
at time 10 and the file's mtime is 5 (not newer), yet a watcher change event
still reprocesses: the resulting record's `processed` timestamp becomes 20,
so the record is not left identical — the guard does not apply to watcher
events. -/
theorem c3_counterexample :
    (lookupLib libImg "img").map (fun r => r.processed) = some (some 10) ∧
    sweepImgOld.mtime ≤ 10 ∧
    (lookupLib (watcherOnChange defaultConfig envOk20 sweepImgOld.path libImg)
      "img").map (fun r => r.processed) = some (some 20) ∧
    some (some (20 : ℤ)) ≠ some (some (10 : ℤ)) := by
  refine ⟨rfl, by decide, rfl, by decide⟩

/-- Claim C4: per-file failure isolation.  (1) If any stage of `processImage`
fails (metadata extraction, optimized encode/write, thumbnail encode/write),
the call returns `null` (no exception — the model is total because the
source's `try`/`catch` swallows every error) and the library is untouched.
(2) In a batch, the record under a corrupted file's normalized name is
exactly what it was before the batch (provided no distinct healthy file
shares that normalized name).  (3) Every healthy image file of the batch has
a manifest record after the batch. -/
theorem c4_failure_isolation :
    (∀ (cfg : Config) (env : FileEnv) (nm : String) (lib : Library),
      env.metadata = none ∨ env.optSize = none ∨ env.thumbSize = none →
      processImage cfg env nm lib = (none, lib)) ∧
    (∀ (cfg : Config) (lib : Library) (files : List SweepFile) (fk : SweepFile),
      fk ∈ files → fk.env.metadata = none →
      (∀ f ∈ files, generateImageName f.path = generateImageName fk.path →
        f.env.metadata = none) →
      lookupLib (processExistingImages cfg lib files) (generateImageName fk.path) =
        lookupLib lib (generateImageName fk.path)) ∧
    (∀ (cfg : Config) (lib : Library) (files : List SweepFile) (f : SweepFile),
      f ∈ files → isImageFile f.path = true →
      f.env.metadata ≠ none → f.env.optSize ≠ none → f.env.thumbSize ≠ none →
      (lookupLib (processExistingImages cfg lib files)
        (generateImageName f.path)).isSome = true) := by
  refine ⟨processImage_fail, ?_, ?_⟩
  · intro cfg lib files fk hfk hmeta hcoll
    unfold processExistingImages
    apply sweep_fold_untouched
    intro f hf hn
    exact hcoll f (List.mem_of_mem_filter hf) hn
  · intro cfg lib files f hf himg hm ho ht
    unfold processExistingImages
    exact sweep_fold_self_isSome cfg _ lib f
      (List.mem_filter.mpr ⟨hf, himg⟩) hm ho ht

/-- Claim C4 witness: the theorem applied to a three-file batch over an empty
manifest whose middle file `bad.jpg` is corrupted: its record stays absent
while both healthy files end up with records. -/
theorem c4_failure_isolation_witness :
    processImage defaultConfig envBad "bad" [] = (none, []) ∧
    lookupLib (processExistingImages defaultConfig [] batchFiles)
      (generateImageName fileBad.path) =
      lookupLib [] (generateImageName fileBad.path) ∧
    (lookupLib (processExistingImages defaultConfig [] batchFiles)
      (generateImageName fileOne.path)).isSome = true :=
  ⟨c4_failure_isolation.1 defaultConfig envBad "bad" [] (Or.inl rfl),
   c4_failure_isolation.2.1 defaultConfig [] batchFiles fileBad
     (by decide) rfl (by decide),
   c4_failure_isolation.2.2 defaultConfig [] batchFiles fileOne
     (by decide) rfl (by decide) (by decide) (by decide)⟩

/-- Claim C5 (amended): for the spec's two-record example the aggregated byte
totals are 3000 and 1400 and the reported compression is "53.3%", but the
size fields reported by `getLibraryStats` are human-formatted strings
("2.93 KB" and "1.37 KB"), not the raw numbers 3000 and 1400.  In general the
reported compression percentage is `(totalOriginal - totalOptimized) /
totalOriginal`, expressed as a percentage rounded to one decimal, and is the
string "0%" when `totalOriginal` is 0. -/
theorem c5_stats_compression :
    totalOriginalSize statsLib = 3000 ∧
    totalOptimizedSize statsLib = 1400 ∧
    (getLibraryStats statsLib).totalOriginalSize = "2.93 KB" ∧
    (getLibraryStats statsLib).totalOptimizedSize = "1.37 KB" ∧
    (getLibraryStats statsLib).avgCompression = "53.3%" ∧
    (∀ lib : Library, 0 < totalOriginalSize lib →
      (getLibraryStats lib).avgCompression =
        renderTenthsZ (jsRound (10 * ((((totalOriginalSize lib : ℚ) -
          (totalOptimizedSize lib : ℚ)) / (totalOriginalSize lib : ℚ)) * 100))) ++ "%") ∧
    (∀ lib : Library, totalOriginalSize lib = 0 →
      (getLibraryStats lib).avgCompression = "0%") := by
  refine ⟨statsLib_totalOriginal, statsLib_totalOptimized,
    getLibraryStats_statsLib_original, getLibraryStats_statsLib_optimized,
    getLibraryStats_statsLib_avg, ?_, ?_⟩
  · intro lib hpos
    show (if 0 < totalOriginalSize lib then
        renderTenthsZ (jsRound ((((totalOriginalSize lib : ℤ) -
          (totalOptimizedSize lib : ℤ) : ℤ) : ℚ) * 1000 /
          (totalOriginalSize lib : ℚ)))
      else "0") ++ "%" = _
    rw [if_pos hpos]
    congr 3
    push_cast
    ring
  · intro lib hzero
    show (if 0 < totalOriginalSize lib then
        renderTenthsZ (jsRound ((((totalOriginalSize lib : ℤ) -
          (totalOptimizedSize lib : ℤ) : ℤ) : ℚ) * 1000 /
          (totalOriginalSize lib : ℚ)))
      else "0") ++ "%" = "0%"
    rw [hzero]
    rfl

/-- Claim C5 witness: the general compression-formula clause applied at the
two-record example library, and the zero clause applied at the empty
library. -/
theorem c5_stats_compression_witness :
    (getLibraryStats statsLib).avgCompression =
      renderTenthsZ (jsRound (10 * ((((totalOriginalSize statsLib : ℚ) -
        (totalOptimizedSize statsLib : ℚ)) / (totalOriginalSize statsLib : ℚ)) * 100))) ++ "%" ∧
    (getLibraryStats ([] : Library)).avgCompression = "0%" :=
  ⟨(c5_stats_compression.2.2.2.2.2.1) statsLib (by rw [statsLib_totalOriginal]; norm_num),
   (c5_stats_compression.2.2.2.2.2.2) ([] : Library) rfl⟩

/-- Claim C5 counterexample: `getLibraryStats` on the spec's two-record
example reports `totalOriginalSize` as the formatted string "2.93 KB" — not
the number 3000 the claim states. -/
theorem c5_counterexample :
    (getLibraryStats statsLib).totalOriginalSize = "2.93 KB" ∧
    (getLibraryStats statsLib).totalOriginalSize ≠ "3000" := by
  refine ⟨getLibraryStats_statsLib_original, ?_⟩
  rw [getLibraryStats_statsLib_original]
  decide

/-- Claim C6: for every source filename, the normalized name computed by
`generateImageName` is exactly the basename without its extension,
lowercased, with every maximal run of non-alphanumeric characters collapsed
to a single hyphen and no leading or trailing hyphen — i.e. the code's
three-step regex pipeline coincides with the specification's one-pass
description. -/
theorem c6_normalized_name_spec (s : String) :
    generateImageName s = specNormalizeName s := by
  unfold generateImageName specNormalizeName
  rw [show (basenameNoExtList s.data).map (fun c => keepOrDash c.toLower)
      = ((basenameNoExtList s.data).map Char.toLower).map keepOrDash by
    rw [List.map_map]; rfl]
  rw [collapseGo_keepOrDash]

/-- Claim C7: persisting a non-empty name-keyed manifest whose records carry
their own key in the `name` field, then loading the resulting array back,
reconstructs exactly the original map (same bindings, same order). -/
theorem c7_manifest_round_trip (lib : Library) (hne : lib ≠ [])
    (hkeys : (lib.map (fun p => p.1)).Nodup)
    (hname : ∀ p ∈ lib, p.2.name = p.1) :
    loadImageLibrary (saveImageLibrary lib) = lib := by
  unfold loadImageLibrary saveImageLibrary
  have hmap : ((lib.map (fun p => p.2)).map (fun r => r.name)) =
      lib.map (fun p => p.1) := by
    rw [List.map_map]
    exact List.map_congr_left (fun p hp => hname p hp)
  rw [load_fold_append (lib.map (fun p => p.2)) [] (fun r _ => rfl)
    (by rw [hmap]; exact hkeys)]
  rw [List.nil_append, List.map_map]
  have : ∀ p ∈ lib, ((fun r => ((r.name : String), r)) ∘ fun p => p.2) p = p := by
    intro p hp
    show ((p.2).name, p.2) = p
    rw [hname p hp]
  rw [List.map_congr_left this]
  simp

/-- Claim C7 witness: the round trip applied to the concrete two-record
manifest fixture. -/
theorem c7_manifest_round_trip_witness :
    loadImageLibrary (saveImageLibrary statsLib) = statsLib :=
  c7_manifest_round_trip statsLib (by decide) (by decide) (by decide)

/-- Claim C8: manifest I/O failures never propagate.  `load` on a read/parse
error yields the empty map inside a successful result (never an error); on a
successful read it yields the keyed map; in every case the result is `ok`.
`persist` always returns `ok` with the in-memory map unchanged; on a write
error no file payload is produced (durability lost) but nothing is raised. -/
theorem c8_manifest_io_no_raise :
    (∀ e : String, loadImageLibraryE (Except.error e) = Except.ok []) ∧
    (∀ arr : List ImageRecord,
      loadImageLibraryE (Except.ok arr) = Except.ok (loadImageLibrary arr)) ∧
    (∀ raw : Except String (List ImageRecord),
      ∃ lib, loadImageLibraryE raw = Except.ok lib) ∧
    (∀ (lib : Library) (writeResult : Except String Unit),
      ∃ out, saveImageLibraryE lib writeResult = Except.ok out ∧ out.1 = lib) ∧
    (∀ (lib : Library) (e : String),
      saveImageLibraryE lib (Except.error e) = Except.ok (lib, none)) := by
  refine ⟨fun e => rfl, fun arr => rfl, ?_, ?_, fun lib e => rfl⟩
  · intro raw
    cases raw with
    | ok arr => exact ⟨loadImageLibrary arr, rfl⟩
    | error e => exact ⟨[], rfl⟩
  · intro lib writeResult
    cases writeResult with
    | ok u => exact ⟨(lib, some (saveImageLibrary lib)), rfl, rfl⟩
    | error e => exact ⟨(lib, none), rfl, rfl⟩

/-- Claim C9: the normalization is not injective — `Cat.jpg` and `cat.png`
both normalize to `cat` (case/extension erased) and `a_b.jpg` collides with
`a-b!.jpg`; a basename with no ASCII alphanumerics (`###.jpg`) normalizes to
the empty string.  Processing the second colliding file overwrites the
first's manifest record in place (the library still has exactly one entry,
now carrying the second processing's timestamp) and both write the same
derivative filename `cat.jpg`. -/
theorem c9_name_collisions :
    generateImageName "Cat.jpg" = "cat" ∧
    generateImageName "cat.png" = "cat" ∧
    ("Cat.jpg" : String) ≠ "cat.png" ∧
    generateImageName "a_b.jpg" = generateImageName "a-b!.jpg" ∧
    ("a_b.jpg" : String) ≠ "a-b!.jpg" ∧
    generateImageName "###.jpg" = "" ∧
    libCat1.length = 1 ∧
    libCat2.length = 1 ∧
    (lookupLib libCat1 "cat").map (fun r => r.processed) = some (some 1) ∧
    (lookupLib libCat2 "cat").map (fun r => r.processed) = some (some 99) ∧
    (lookupLib libCat1 "cat").map (fun r => r.filename) = some "cat.jpg" ∧
    (lookupLib libCat2 "cat").map (fun r => r.filename) = some "cat.jpg" := by
  refine ⟨rfl, rfl, by decide, rfl, by decide, rfl, rfl, rfl, rfl, rfl, rfl, rfl⟩

/-- Claim C10: the key-equals-name invariant.  Loading any manifest array
produces a map in which every binding's key equals the record's own `name`
field, and `processImage` (which inserts the record it builds under the same
normalized name it stores in the record) preserves the invariant. -/
theorem c10_key_name_invariant :
    (∀ arr : List ImageRecord, ∀ p ∈ loadImageLibrary arr, p.2.name = p.1) ∧
    (∀ (cfg : Config) (env : FileEnv) (nm : String) (lib : Library),
      (∀ p ∈ lib, p.2.name = p.1) →
      ∀ p ∈ (processImage cfg env nm lib).2, p.2.name = p.1) := by
  constructor
  · intro arr p hp
    exact loadImageLibrary_inv_aux arr [] (by intro q hq; cases hq) p hp
  · intro cfg env nm lib hinv p hp
    rcases processImage_snd_cases cfg env nm lib with hcase | ⟨r, hr, hcase⟩
    · rw [hcase] at hp
      exact hinv p hp
    · rw [hcase] at hp
      exact upsert_key_name_inv lib nm r hr hinv p hp

/-- Claim C10 witness: the invariant instantiated on the loaded singleton
manifest `[recA]` and on a processing step over the two-record fixture
library. -/
theorem c10_key_name_invariant_witness :
    (("a", recA) : String × ImageRecord).2.name = ("a", recA).1 ∧
    (("b", recB) : String × ImageRecord).2.name = ("b", recB).1 :=
  ⟨c10_key_name_invariant.1 [recA] ("a", recA) (by decide),
   c10_key_name_invariant.2 defaultConfig envBad "x" statsLib (by decide)
     ("b", recB) (by decide)⟩

end ImageProc
